import Mathlib

/-!
Shallow embedding of the StyleDecor server route handlers.

The repository is a set of near-duplicate revisions of one Express/MongoDB
backend.  The fullest revision is `src/unnamed/part_000`; the handlers below
are transcribed from it, and where a claim cites a diverging revision
(`src/index.js`, `src/unnamed/part_002`, `src/unnamed/part_003`) that
revision's handler is embedded under a suffixed name.

Modelling conventions:
* Mongo collections become Lean lists in insertion (natural) order;
  `findOne` is `List.find?`, `insertOne` appends, `updateOne` rewrites the
  first matching element (`updateFirst`).
* Document ids are `Nat`; a `nextId` counter in the state plays the role of
  ObjectId generation.
* JSON numbers (payment amounts, prices) are `ℚ`; fields a revision may
  leave absent on a document are `Option`-valued.
* `new Date()` timestamps are a `Nat` parameter `now` passed to the handler;
  the random tracking number in `src/index.js` is likewise a parameter.
* A handler's HTTP response is a `Resp`: `Resp.ok` for `res.send` of a
  success payload, `Resp.err code msg` for `res.status(code).send(message)`.
-/

set_option autoImplicit false

namespace StyleDecor

/-- Response of a route handler: success payload or `res.status(code).send`. -/
inductive Resp where
  | ok : Resp
  | err : Nat → String → Resp
deriving DecidableEq, Repr

/-- A document of the `users` collection (fields the handlers touch). -/
structure User where
  email : String
  role : String
deriving DecidableEq, Repr

/-- A document of the `decorators` collection (a decorator application),
as inserted by POST /decorators/apply in `src/unnamed/part_000`. -/
structure Application where
  id : Nat
  name : String
  email : String
  phone : String
  nid : String
  experience : String
  status : String
  createdAt : Nat
deriving DecidableEq, Repr

/-- A document of the `bookings` collection.  Different revisions write
different fields (`paymentStatus` in part_000, `status`/`trackingNo` in
index.js), so those are `Option`-valued; `details` stands for the remaining
pass-through request-body fields. -/
structure Booking where
  id : Nat
  userEmail : Option String
  paymentStatus : Option String
  status : Option String
  transactionId : Option String
  trackingNo : Option Nat
  details : String
  createdAt : Option Nat
deriving DecidableEq, Repr

/-- A document of the `payments` collection, as inserted by
POST /payments in `src/unnamed/part_000`. -/
structure Payment where
  bookingId : Nat
  amount : ℚ
  transactionId : String
  trackingId : String
  email : String
  serviceType : String
  region : String
  createdAt : Nat
deriving DecidableEq, Repr

/-- A document of the `services` collection, as inserted by
POST /services in `src/unnamed/part_000`. -/
structure Service where
  id : Nat
  bookingId : Nat
  serviceType : String
  eventType : String
  bookingDate : String
  timeSlot : String
  location : String
  price : Option ℚ
  decoratorName : String
  decoratorEmail : String
  decoratorPhone : String
  status : String
  createdAt : Nat
deriving DecidableEq, Repr

/-- A document of the `trackings` collection, as inserted by
POST /services/cashout/:id in `src/unnamed/part_000` (and, with fewer
fields, by POST /payments in `src/index.js`). -/
structure Tracking where
  bookingId : Nat
  trackingNo : Option String
  cost : Option ℚ
  status : String
  email : Option String
  createdAt : Nat
deriving DecidableEq, Repr

/-- The document store: the six collections plus an id generator. -/
structure DB where
  users : List User
  decorators : List Application
  bookings : List Booking
  payments : List Payment
  services : List Service
  trackings : List Tracking
  nextId : Nat
deriving DecidableEq, Repr

/-- Request body of POST /bookings: an optional caller-supplied owner field,
optional payment-status fields, and opaque remaining details. -/
structure BookingBody where
  userEmail : Option String
  paymentStatus : Option String
  status : Option String
  details : String
deriving DecidableEq, Repr

/-- Request body of POST /payments, as destructured in
`src/unnamed/part_000`. -/
structure PayBody where
  bookingId : Nat
  amount : ℚ
  transactionId : String
  trackingId : String
  email : String
  serviceType : String
  region : String
deriving DecidableEq, Repr

/-- Request body of POST /decorators/apply, as destructured in
`src/unnamed/part_000`. -/
structure ApplyBody where
  name : String
  email : String
  phone : String
  nid : String
  experience : String
deriving DecidableEq, Repr

/-- Request body of POST /services, as destructured in
`src/unnamed/part_000`. -/
structure AssignBody where
  bookingId : Nat
  serviceType : String
  eventType : String
  bookingDate : String
  timeSlot : String
  location : String
  price : Option ℚ
  decoratorName : String
  decoratorEmail : String
  decoratorPhone : String
deriving DecidableEq, Repr

/-- Mongo `updateOne`: rewrite the first element matching the filter. -/
def updateFirst {α : Type} (p : α → Bool) (f : α → α) : List α → List α
  | [] => []
  | x :: xs => if p x then f x :: xs else x :: updateFirst p f xs

/-- JS `Number(x.toFixed(2))`: round to two decimal places, ties away from
zero for positive arguments (ES toFixed picks the larger candidate on a
tie, which is `floor (x*100 + 1/2)` over the exact rationals). -/
def toFixed2 (q : ℚ) : ℚ := ((Int.floor (q * 100 + 1/2) : ℤ) : ℚ) / 100

/-- The cash-out idempotence guard `service.price && service.price > 0`
from `src/unnamed/part_000`: an absent price is falsy, so the guard fires
exactly when a price is present and positive. -/
def serviceCashedOut : Option ℚ → Bool
  | none => false
  | some p => decide (0 < p)

/-- The `validTransitions` object of PATCH /services/:id in
`src/unnamed/part_000`: `Assigned ↦ Confirmed`, `Confirmed ↦ Completed`,
anything else (including `Completed`) has no successor. -/
def validTransitions (current : String) : Option String :=
  if current = "Assigned" then some "Confirmed"
  else if current = "Confirmed" then some "Completed"
  else none

/-- POST /bookings in `src/unnamed/part_000`: spread the request body,
override `userEmail` with the authenticated caller, stamp `createdAt`.
No `paymentStatus` field is written. -/
def createBooking (db : DB) (caller : String) (body : BookingBody) (now : Nat) : Resp × DB :=
  let booking : Booking :=
    { id := db.nextId
      userEmail := some caller
      paymentStatus := body.paymentStatus
      status := body.status
      transactionId := none
      trackingNo := none
      details := body.details
      createdAt := some now }
  (Resp.ok, { db with bookings := db.bookings ++ [booking], nextId := db.nextId + 1 })

/-- POST /bookings in `src/index.js`: stamp `userEmail` from the token,
set the `status` field (not `paymentStatus`) to "unpaid", stamp `createdAt`. -/
def createBookingIndex (db : DB) (caller : String) (body : BookingBody) (now : Nat) : Resp × DB :=
  let booking : Booking :=
    { id := db.nextId
      userEmail := some caller
      paymentStatus := body.paymentStatus
      status := some "unpaid"
      transactionId := none
      trackingNo := none
      details := body.details
      createdAt := some now }
  (Resp.ok, { db with bookings := db.bookings ++ [booking], nextId := db.nextId + 1 })

/-- POST /bookings in `src/unnamed/part_002`: inserts `req.body` verbatim —
no owner stamping, no status, no timestamp. -/
def createBookingPart002 (db : DB) (_caller : String) (body : BookingBody) : Resp × DB :=
  let booking : Booking :=
    { id := db.nextId
      userEmail := body.userEmail
      paymentStatus := body.paymentStatus
      status := body.status
      transactionId := none
      trackingNo := none
      details := body.details
      createdAt := none }
  (Resp.ok, { db with bookings := db.bookings ++ [booking], nextId := db.nextId + 1 })

/-- The payment document POST /payments inserts from its request body. -/
def paymentOfBody (body : PayBody) (now : Nat) : Payment :=
  { bookingId := body.bookingId
    amount := body.amount
    transactionId := body.transactionId
    trackingId := body.trackingId
    email := body.email
    serviceType := body.serviceType
    region := body.region
    createdAt := now }

/-- POST /payments in `src/unnamed/part_000`: unconditionally insert a
payment document, then set the matching booking's `paymentStatus` to
"paid" and record the transaction id.  There is no input validation,
no booking lookup, and no already-paid check. -/
def pay (db : DB) (body : PayBody) (now : Nat) : Resp × DB :=
  let db1 := { db with payments := db.payments ++ [paymentOfBody body now] }
  let updated :=
    updateFirst (fun b => b.id == body.bookingId)
      (fun b => { b with paymentStatus := some "paid", transactionId := some body.transactionId })
      db1.bookings
  (Resp.ok, { db1 with bookings := updated })

/-- POST /payments in `src/index.js`: insert the payment, set the booking's
`status` to "paid" with a random tracking number (`rand`), and append a
"Payment Completed" tracking event.  Again no guard of any kind. -/
def payIndex (db : DB) (body : PayBody) (now : Nat) (rand : Nat) : Resp × DB :=
  let db1 := { db with payments := db.payments ++ [paymentOfBody body now] }
  let updated :=
    updateFirst (fun b => b.id == body.bookingId)
      (fun b => { b with status := some "paid", trackingNo := some rand })
      db1.bookings
  let db2 := { db1 with bookings := updated }
  let tracking : Tracking :=
    { bookingId := body.bookingId
      trackingNo := none
      cost := none
      status := "Payment Completed"
      email := none
      createdAt := now }
  (Resp.ok, { db2 with trackings := db2.trackings ++ [tracking] })

/-- The application document POST /decorators/apply inserts. -/
def applicationOfBody (id : Nat) (body : ApplyBody) (now : Nat) : Application :=
  { id := id
    name := body.name
    email := body.email
    phone := body.phone
    nid := body.nid
    experience := body.experience
    status := "pending"
    createdAt := now }

/-- POST /decorators/apply in `src/unnamed/part_000`: reject with 400 when
an application with that email already exists (any status), otherwise
insert a new application with status "pending". -/
def applyDecorator (db : DB) (body : ApplyBody) (now : Nat) : Resp × DB :=
  match db.decorators.find? (fun d => d.email == body.email) with
  | some _ => (Resp.err 400 "You have already applied as a decorator", db)
  | none =>
      let inserted := db.decorators ++ [applicationOfBody db.nextId body now]
      (Resp.ok, { db with decorators := inserted, nextId := db.nextId + 1 })

/-- POST /decorators/apply in `src/index.js`: no duplicate check at all;
always inserts a new "pending" application. -/
def applyDecoratorIndex (db : DB) (body : ApplyBody) (now : Nat) : Resp × DB :=
  let inserted := db.decorators ++ [applicationOfBody db.nextId body now]
  (Resp.ok, { db with decorators := inserted, nextId := db.nextId + 1 })

/-- PATCH /decorators/approve/:id in `src/unnamed/part_000`: 404 when the
application is missing; otherwise set its status to "approved" AND set the
linked user's role (matched by the application's email) to "decorator". -/
def approveDecorator (db : DB) (appId : Nat) : Resp × DB :=
  match db.decorators.find? (fun d => d.id == appId) with
  | none => (Resp.err 404 "Decorator not found", db)
  | some decorator =>
      let decs :=
        updateFirst (fun d => d.id == decorator.id)
          (fun d => { d with status := "approved" }) db.decorators
      let db1 := { db with decorators := decs }
      let usrs :=
        updateFirst (fun u => u.email == decorator.email)
          (fun u => { u with role := "decorator" }) db1.users
      (Resp.ok, { db1 with users := usrs })

/-- PATCH /decorators/approve/:id in `src/unnamed/part_003` (lines 410-417):
updates only the application's status; the linked user's role is never
touched, and no existence check is performed. -/
def approveDecoratorPart003 (db : DB) (appId : Nat) : Resp × DB :=
  let decs :=
    updateFirst (fun d => d.id == appId)
      (fun d => { d with status := "approved" }) db.decorators
  (Resp.ok, { db with decorators := decs })

/-- The service document POST /services inserts: the caller-supplied fields
(including `price`) plus status "Assigned" and a timestamp. -/
def serviceOfBody (id : Nat) (body : AssignBody) (now : Nat) : Service :=
  { id := id
    bookingId := body.bookingId
    serviceType := body.serviceType
    eventType := body.eventType
    bookingDate := body.bookingDate
    timeSlot := body.timeSlot
    location := body.location
    price := body.price
    decoratorName := body.decoratorName
    decoratorEmail := body.decoratorEmail
    decoratorPhone := body.decoratorPhone
    status := "Assigned"
    createdAt := now }

/-- POST /services in `src/unnamed/part_000`: 400 when a service already
references the bookingId, otherwise insert the new service. -/
def assignService (db : DB) (body : AssignBody) (now : Nat) : Resp × DB :=
  match db.services.find? (fun s => s.bookingId == body.bookingId) with
  | some _ => (Resp.err 400 "Service already assigned", db)
  | none =>
      let inserted := db.services ++ [serviceOfBody db.nextId body now]
      (Resp.ok, { db with services := inserted, nextId := db.nextId + 1 })

/-- PATCH /services/:id in `src/unnamed/part_000`: 404 when the service is
missing; 400 "Invalid status flow" unless the requested status is exactly
the `validTransitions` successor of the current status; on success only the
status field is overwritten.  The authenticated caller is never consulted. -/
def updateServiceStatus (db : DB) (serviceId : Nat) (status : String) (_caller : String) :
    Resp × DB :=
  match db.services.find? (fun s => s.id == serviceId) with
  | none => (Resp.err 404 "Service not found", db)
  | some service =>
      if validTransitions service.status = some status then
        let updated :=
          updateFirst (fun s => s.id == service.id)
            (fun s => { s with status := status }) db.services
        (Resp.ok, { db with services := updated })
      else (Resp.err 400 "Invalid status flow", db)

/-- POST /services/cashout/:id in `src/unnamed/part_000`: 404 when the
service is missing; 400 "Already cashed out" when the price guard fires;
400 "Payment not found" when no payment references the service's bookingId;
otherwise set the service's price to `toFixed2 (amount * 0.4)`, force its
status to "Completed", and append a tracking event carrying the cost and
the caller's email. -/
def cashOut (db : DB) (serviceId : Nat) (caller : String) (trackingNo : Option String)
    (now : Nat) : Resp × DB :=
  match db.services.find? (fun s => s.id == serviceId) with
  | none => (Resp.err 404 "Service not found", db)
  | some service =>
      if serviceCashedOut service.price then
        (Resp.err 400 "Already cashed out", db)
      else
        match db.payments.find? (fun p => p.bookingId == service.bookingId) with
        | none => (Resp.err 400 "Payment not found", db)
        | some payment =>
            let decoratorAmount := toFixed2 (payment.amount * 0.4)
            let updated :=
              updateFirst (fun s => s.id == service.id)
                (fun s => { s with price := some decoratorAmount, status := "Completed" })
                db.services
            let db1 := { db with services := updated }
            let tracking : Tracking :=
              { bookingId := service.bookingId
                trackingNo := trackingNo
                cost := some decoratorAmount
                status := "Completed"
                email := some caller
                createdAt := now }
            (Resp.ok, { db1 with trackings := db1.trackings ++ [tracking] })

/-- Erase the actor field of a tracking event (used to state that two runs
differ at most in the recorded actor email). -/
def Tracking.scrubEmail (t : Tracking) : Tracking := { t with email := none }

/-- The document store after PATCH /services/:id overwrites the status of
the service with the given id. -/
def overwriteStatus (db : DB) (sid : Nat) (st : String) : DB :=
  let updated :=
    updateFirst (fun x => x.id == sid) (fun x => { x with status := st }) db.services
  { db with services := updated }

/-! ### General facts about the store primitives -/

theorem find?_updateFirst {α : Type} (p : α → Bool) (f : α → α) (l : List α)
    (hf : ∀ a, p (f a) = p a) :
    (updateFirst p f l).find? p = (l.find? p).map f := by
  induction l with
  | nil => rfl
  | cons x xs ih =>
      cases hx : p x with
      | true =>
          have hfx : p (f x) = true := (hf x).trans hx
          rw [updateFirst, if_pos hx, List.find?_cons_of_pos _ hfx,
            List.find?_cons_of_pos _ hx]
          rfl
      | false =>
          have hfx : ¬ p x = true := by simp [hx]
          rw [updateFirst, if_neg hfx, List.find?_cons_of_neg _ hfx,
            List.find?_cons_of_neg _ hfx, ih]

theorem updateFirst_of_find?_eq_none {α : Type} (p : α → Bool) (f : α → α) (l : List α)
    (h : l.find? p = none) : updateFirst p f l = l := by
  induction l with
  | nil => rfl
  | cons x xs ih =>
      rw [List.find?_eq_none] at h
      have hx : ¬ p x = true := h x (List.mem_cons_self x xs)
      rw [updateFirst, if_neg hx,
        ih (List.find?_eq_none.mpr fun y hy => h y (List.mem_cons_of_mem x hy))]

/-! ### Concrete fixtures used by witnesses and counterexamples -/

/-- An empty store. -/
def dbEmpty : DB :=
  { users := [], decorators := [], bookings := [], payments := [], services := [],
    trackings := [], nextId := 1 }

/-- An assigned, not-yet-cashed-out service for booking 1. -/
def svcW : Service :=
  { id := 1, bookingId := 1, serviceType := "Home", eventType := "Wedding",
    bookingDate := "2025-01-01", timeSlot := "am", location := "Dhaka", price := none,
    decoratorName := "D", decoratorEmail := "d@x.com", decoratorPhone := "0",
    status := "Assigned", createdAt := 0 }

/-- A store holding just `svcW`. -/
def dbW : DB :=
  { users := [], decorators := [], bookings := [], payments := [], services := [svcW],
    trackings := [], nextId := 2 }

/-- A payment of 100 against booking 1. -/
def pmW : Payment :=
  { bookingId := 1, amount := 100, transactionId := "t1", trackingId := "TRK-0",
    email := "u@x.com", serviceType := "Home", region := "Dhaka", createdAt := 0 }

/-- A store holding `svcW` and a payment for its booking. -/
def dbCash : DB :=
  { users := [], decorators := [], bookings := [], payments := [pmW], services := [svcW],
    trackings := [], nextId := 2 }

/-! ### Claim C2 -/

/-- Claim C2 (confirmed): `UpdateServiceStatus` (PATCH /services/:id)
succeeds exactly when the requested status equals the fixed table's
designated successor of the current status (Assigned to Confirmed,
Confirmed to Completed, Completed terminal); any other request — including
Assigned to Completed and anything once Completed — fails with the
InvalidTransition response (400 "Invalid status flow") leaving the store
unchanged; a missing serviceId yields 404 "Service not found". -/
theorem updateServiceStatus_transition_table :
    ∀ (db : DB) (sid : Nat) (st caller : String),
      validTransitions "Assigned" = some "Confirmed" ∧
      validTransitions "Confirmed" = some "Completed" ∧
      validTransitions "Completed" = none ∧
      (db.services.find? (fun x => x.id == sid) = none →
        updateServiceStatus db sid st caller = (Resp.err 404 "Service not found", db)) ∧
      (∀ s, db.services.find? (fun x => x.id == sid) = some s →
        (validTransitions s.status = some st →
          updateServiceStatus db sid st caller = (Resp.ok, overwriteStatus db s.id st)) ∧
        (validTransitions s.status ≠ some st →
          updateServiceStatus db sid st caller = (Resp.err 400 "Invalid status flow", db))) := by
  intro db sid st caller
  refine ⟨rfl, rfl, rfl, ?_, ?_⟩
  · intro h
    simp [updateServiceStatus, h]
  · intro s hs
    constructor
    · intro hv
      simp [updateServiceStatus, hs, hv, overwriteStatus]
    · intro hv
      simp [updateServiceStatus, hs, hv]

/-- Witness for C2 on a concrete store: Assigned to Confirmed succeeds,
Assigned to Completed is rejected, and an unknown id is a 404. -/
theorem updateServiceStatus_transition_table_witness :
    updateServiceStatus dbW 1 "Confirmed" "d@x.com" = (Resp.ok, overwriteStatus dbW 1 "Confirmed") ∧
    updateServiceStatus dbW 1 "Completed" "d@x.com" = (Resp.err 400 "Invalid status flow", dbW) ∧
    updateServiceStatus dbW 9 "Confirmed" "d@x.com" = (Resp.err 404 "Service not found", dbW) := by
  refine ⟨?_, ?_, ?_⟩
  · exact ((updateServiceStatus_transition_table dbW 1 "Confirmed" "d@x.com").2.2.2.2
      svcW (by rfl)).1 (by decide)
  · exact ((updateServiceStatus_transition_table dbW 1 "Completed" "d@x.com").2.2.2.2
      svcW (by rfl)).2 (by decide)
  · exact (updateServiceStatus_transition_table dbW 9 "Confirmed" "d@x.com").2.2.2.1 (by rfl)

/-! ### Claim C9 -/

/-- Claim C9 (confirmed): neither UpdateServiceStatus nor CashOut consults
the authenticated caller: for any two principals the outcome and every
collection of the resulting store agree, except that the tracking events
appended by CashOut may differ in the recorded actor email alone. -/
theorem service_ops_caller_independent :
    ∀ (db : DB) (sid : Nat) (st e1 e2 : String) (tn : Option String) (now : Nat),
      updateServiceStatus db sid st e1 = updateServiceStatus db sid st e2 ∧
      (cashOut db sid e1 tn now).1 = (cashOut db sid e2 tn now).1 ∧
      (cashOut db sid e1 tn now).2.users = (cashOut db sid e2 tn now).2.users ∧
      (cashOut db sid e1 tn now).2.decorators = (cashOut db sid e2 tn now).2.decorators ∧
      (cashOut db sid e1 tn now).2.bookings = (cashOut db sid e2 tn now).2.bookings ∧
      (cashOut db sid e1 tn now).2.payments = (cashOut db sid e2 tn now).2.payments ∧
      (cashOut db sid e1 tn now).2.services = (cashOut db sid e2 tn now).2.services ∧
      (cashOut db sid e1 tn now).2.trackings.map Tracking.scrubEmail =
        (cashOut db sid e2 tn now).2.trackings.map Tracking.scrubEmail := by
  intro db sid st e1 e2 tn now
  refine ⟨rfl, ?_⟩
  cases hfind : db.services.find? (fun s => s.id == sid) with
  | none =>
      simp [cashOut, hfind]
  | some s =>
      cases hc : serviceCashedOut s.price with
      | true =>
          simp [cashOut, hfind, hc]
      | false =>
          cases hpay : db.payments.find? (fun p => p.bookingId == s.bookingId) with
          | none =>
              simp [cashOut, hfind, hc, hpay]
          | some pm =>
              simp [cashOut, hfind, hc, hpay, Tracking.scrubEmail]

/-! ### Claim C3 -/

/-- Claim C3 (confirmed): after a successful CashOut whose resulting price
is positive, a second CashOut on the same service fails with the
AlreadyCashedOut response (400 "Already cashed out") and leaves the whole
store — in particular Service.price — unchanged.  The hypotheses spell out
the success conditions of the first call (service present, guard clear,
payment present) and the claim's parenthetical that the resulting price is
a positive value. -/
theorem cashOut_second_call_fails :
    ∀ (db : DB) (sid : Nat) (c c2 : String) (tn tn2 : Option String) (now now2 : Nat)
      (s : Service) (pm : Payment),
      db.services.find? (fun x => x.id == sid) = some s →
      serviceCashedOut s.price = false →
      db.payments.find? (fun x => x.bookingId == s.bookingId) = some pm →
      0 < toFixed2 (pm.amount * 0.4) →
      (cashOut db sid c tn now).1 = Resp.ok ∧
      cashOut (cashOut db sid c tn now).2 sid c2 tn2 now2 =
        (Resp.err 400 "Already cashed out", (cashOut db sid c tn now).2) := by
  intro db sid c c2 tn tn2 now now2 s pm hs hguard hpay hpos
  have hid : s.id = sid := by simpa using List.find?_some hs
  subst hid
  have hfst : (cashOut db s.id c tn now).1 = Resp.ok := by
    simp [cashOut, hs, hguard, hpay]
  have hsvc : (cashOut db s.id c tn now).2.services =
      updateFirst (fun x => x.id == s.id)
        (fun x => { x with price := some (toFixed2 (pm.amount * 0.4)), status := "Completed" })
        db.services := by
    simp [cashOut, hs, hguard, hpay]
  have hfind2 : (cashOut db s.id c tn now).2.services.find? (fun x => x.id == s.id) =
      some { s with price := some (toFixed2 (pm.amount * 0.4)), status := "Completed" } := by
    have hcomm := find?_updateFirst (fun x => x.id == s.id)
      (fun x => { x with price := some (toFixed2 (pm.amount * 0.4)), status := "Completed" })
      db.services (fun a => rfl)
    rw [hsvc, hcomm, hs]
    rfl
  refine ⟨hfst, ?_⟩
  have hguard2 : serviceCashedOut (some (toFixed2 (pm.amount * 0.4))) = true := by
    simp [serviceCashedOut, hpos]
  rw [cashOut, hfind2]
  simp [hguard2]

/-- Witness for C3: on the concrete store `dbCash` the first cash-out of
service 1 succeeds (payment amount 100, price 40) and the second one is
rejected without a state change. -/
theorem cashOut_second_call_fails_witness :
    (cashOut dbCash 1 "d@x.com" (some "TRK-1") 5).1 = Resp.ok ∧
    cashOut (cashOut dbCash 1 "d@x.com" (some "TRK-1") 5).2 1 "d@x.com" (some "TRK-2") 6 =
      (Resp.err 400 "Already cashed out", (cashOut dbCash 1 "d@x.com" (some "TRK-1") 5).2) :=
  cashOut_second_call_fails dbCash 1 "d@x.com" "d@x.com" (some "TRK-1") (some "TRK-2") 5 6
    svcW pmW (by rfl) (by rfl) (by rfl)
    (by norm_num [toFixed2, pmW])

/-! ### Claim C4 -/

/-- Claim C4 (confirmed): a successful CashOut sets the service's price to
`toFixed2 (payment.amount * 0.4)` — the decorator keeps 40 percent, rounded
to two decimals — and forces its status to "Completed" regardless of the
current status; in particular an amount of 1000 yields a price of 400. -/
theorem cashOut_price_formula :
    ∀ (db : DB) (sid : Nat) (c : String) (tn : Option String) (now : Nat)
      (s : Service) (pm : Payment),
      db.services.find? (fun x => x.id == sid) = some s →
      serviceCashedOut s.price = false →
      db.payments.find? (fun x => x.bookingId == s.bookingId) = some pm →
      ((cashOut db sid c tn now).1 = Resp.ok ∧
        (cashOut db sid c tn now).2.services.find? (fun x => x.id == sid) =
          some { s with price := some (toFixed2 (pm.amount * 0.4)), status := "Completed" }) ∧
      toFixed2 ((1000 : ℚ) * 0.4) = 400 := by
  intro db sid c tn now s pm hs hguard hpay
  have hid : s.id = sid := by simpa using List.find?_some hs
  subst hid
  constructor
  · constructor
    · simp [cashOut, hs, hguard, hpay]
    · have hsvc : (cashOut db s.id c tn now).2.services =
          updateFirst (fun x => x.id == s.id)
            (fun x => { x with price := some (toFixed2 (pm.amount * 0.4)), status := "Completed" })
            db.services := by
        simp [cashOut, hs, hguard, hpay]
      have hcomm := find?_updateFirst (fun x => x.id == s.id)
        (fun x => { x with price := some (toFixed2 (pm.amount * 0.4)), status := "Completed" })
        db.services (fun a => rfl)
      rw [hsvc, hcomm, hs]
      rfl
  · norm_num [toFixed2]

/-- Witness for C4: cashing out service 1 in `dbCash` (payment amount 100,
current status "Assigned") succeeds with price 40 and status "Completed". -/
theorem cashOut_price_formula_witness :
    ((cashOut dbCash 1 "d@x.com" (some "TRK-3") 8).1 = Resp.ok ∧
      (cashOut dbCash 1 "d@x.com" (some "TRK-3") 8).2.services.find? (fun x => x.id == 1) =
        some { svcW with price := some (toFixed2 (pmW.amount * 0.4)), status := "Completed" }) ∧
    toFixed2 ((1000 : ℚ) * 0.4) = 400 :=
  cashOut_price_formula dbCash 1 "d@x.com" (some "TRK-3") 8 svcW pmW (by rfl) (by rfl) (by rfl)

/-! ### Claim C10 -/

/-- Claim C10 (confirmed): when AssignService stores a caller-supplied
positive `price`, the very first CashOut on the freshly created service is
rejected with the AlreadyCashedOut response, because the guard reads any
positive price as the cash-out flag.  The freshness hypothesis says no
existing service already uses the id the insert will generate. -/
theorem assign_positive_price_blocks_cashout :
    ∀ (db : DB) (body : AssignBody) (now : Nat) (p : ℚ) (c : String)
      (tn : Option String) (now2 : Nat),
      db.services.find? (fun s => s.bookingId == body.bookingId) = none →
      (∀ s ∈ db.services, ¬ s.id = db.nextId) →
      body.price = some p →
      0 < p →
      (assignService db body now).1 = Resp.ok ∧
      cashOut (assignService db body now).2 db.nextId c tn now2 =
        (Resp.err 400 "Already cashed out", (assignService db body now).2) := by
  intro db body now p c tn now2 hno hfresh hprice hp
  have hsvc : (assignService db body now).2.services =
      db.services ++ [serviceOfBody db.nextId body now] := by
    simp [assignService, hno]
  have hold : db.services.find? (fun s => s.id == db.nextId) = none :=
    List.find?_eq_none.mpr fun s hsmem => by simpa using hfresh s hsmem
  have hfind : (assignService db body now).2.services.find? (fun s => s.id == db.nextId) =
      some (serviceOfBody db.nextId body now) := by
    rw [hsvc, List.find?_append, hold]
    simp [serviceOfBody]
  have hguard : serviceCashedOut (serviceOfBody db.nextId body now).price = true := by
    simp [serviceOfBody, hprice, serviceCashedOut, hp]
  refine ⟨by simp [assignService, hno], ?_⟩
  rw [cashOut, hfind]
  simp [hguard]

/-- A POST /services body carrying a positive price for booking 7. -/
def asgBody : AssignBody :=
  { bookingId := 7, serviceType := "Home", eventType := "Wedding", bookingDate := "2025-02-02",
    timeSlot := "pm", location := "Dhaka", price := some 250, decoratorName := "D",
    decoratorEmail := "d@x.com", decoratorPhone := "0" }

/-- Witness for C10: assigning a service with price 250 into the empty
store succeeds, and the first cash-out of the new service (id 1) is
immediately rejected as already cashed out. -/
theorem assign_positive_price_blocks_cashout_witness :
    (assignService dbEmpty asgBody 3).1 = Resp.ok ∧
    cashOut (assignService dbEmpty asgBody 3).2 1 "d@x.com" none 4 =
      (Resp.err 400 "Already cashed out", (assignService dbEmpty asgBody 3).2) :=
  assign_positive_price_blocks_cashout dbEmpty asgBody 3 250 "d@x.com" none 4
    (by rfl) (by simp [dbEmpty]) (by rfl) (by norm_num)

/-! ### Claim C1 -/

/-- A booking whose paymentStatus is already "paid". -/
def bkPaid : Booking :=
  { id := 1, userEmail := some "u@x.com", paymentStatus := some "paid", status := none,
    transactionId := some "t0", trackingNo := none, details := "wedding", createdAt := some 0 }

/-- A store holding only the already-paid booking `bkPaid`. -/
def dbPaid : DB :=
  { users := [], decorators := [], bookings := [bkPaid], payments := [], services := [],
    trackings := [], nextId := 2 }

/-- A POST /payments body targeting booking 1 with amount 500. -/
def payBody2 : PayBody :=
  { bookingId := 1, amount := 500, transactionId := "t2", trackingId := "TRK-9",
    email := "u@x.com", serviceType := "Home", region := "Dhaka" }

/-- Claim C1 counterexample: booking 1 of `dbPaid` already has
paymentStatus "paid", yet a further Pay succeeds (it does not fail with
AlreadyPaid) and inserts an additional Payment record — the handler has no
idempotence guard at all. -/
theorem pay_alreadyPaid_counterexample :
    bkPaid.paymentStatus = some "paid" ∧
    (pay dbPaid payBody2 5).1 = Resp.ok ∧
    (pay dbPaid payBody2 5).2.payments.length = dbPaid.payments.length + 1 :=
  ⟨rfl, rfl, rfl⟩

/-- Claim C1 (corrected): POST /payments performs no AlreadyPaid check.
A Pay on a booking whose paymentStatus is already "paid" succeeds, appends
one more Payment record, and re-marks the booking "paid"; the index.js
revision of the handler likewise always succeeds and always inserts. -/
theorem pay_no_alreadyPaid_guard :
    (∀ (db : DB) (body : PayBody) (now : Nat) (b : Booking),
      db.bookings.find? (fun x => x.id == body.bookingId) = some b →
      b.paymentStatus = some "paid" →
      (pay db body now).1 = Resp.ok ∧
      (pay db body now).2.payments = db.payments ++ [paymentOfBody body now] ∧
      (pay db body now).2.bookings.find? (fun x => x.id == body.bookingId) =
        some { b with paymentStatus := some "paid", transactionId := some body.transactionId }) ∧
    (∀ (db : DB) (body : PayBody) (now rand : Nat),
      (payIndex db body now rand).1 = Resp.ok ∧
      (payIndex db body now rand).2.payments = db.payments ++ [paymentOfBody body now]) := by
  constructor
  · intro db body now b hb _hpaid
    refine ⟨rfl, rfl, ?_⟩
    have hcomm := find?_updateFirst (fun x => x.id == body.bookingId)
      (fun x => { x with paymentStatus := some "paid", transactionId := some body.transactionId })
      db.bookings (fun a => rfl)
    show (updateFirst (fun x => x.id == body.bookingId)
      (fun x => { x with paymentStatus := some "paid", transactionId := some body.transactionId })
      db.bookings).find? (fun x => x.id == body.bookingId) = _
    rw [hcomm, hb]
    rfl
  · intro db body now rand
    exact ⟨rfl, rfl⟩

/-- Witness for C1's amended statement at the concrete store `dbPaid`. -/
theorem pay_no_alreadyPaid_guard_witness :
    (pay dbPaid payBody2 5).1 = Resp.ok ∧
    (pay dbPaid payBody2 5).2.payments = dbPaid.payments ++ [paymentOfBody payBody2 5] ∧
    (pay dbPaid payBody2 5).2.bookings.find? (fun x => x.id == payBody2.bookingId) =
      some { bkPaid with paymentStatus := some "paid", transactionId := some payBody2.transactionId } :=
  pay_no_alreadyPaid_guard.1 dbPaid payBody2 5 bkPaid (by rfl) (by rfl)

/-! ### Claim C7 -/

/-- A POST /payments body with a non-positive amount and a bookingId that
matches no booking. -/
def payBody0 : PayBody :=
  { bookingId := 99, amount := 0, transactionId := "t9", trackingId := "TRK-7",
    email := "u@x.com", serviceType := "Home", region := "Dhaka" }

/-- Claim C7 counterexample: with amount 0 (non-positive) and a bookingId
matching no booking, Pay still succeeds and inserts a Payment record — it
returns neither InvalidInput nor NotFound, and it writes before any check
could run. -/
theorem pay_no_validation_counterexample :
    ¬ 0 < payBody0.amount ∧
    dbEmpty.bookings.find? (fun x => x.id == payBody0.bookingId) = none ∧
    (pay dbEmpty payBody0 1).1 = Resp.ok ∧
    (pay dbEmpty payBody0 1).2.payments.length = 1 :=
  ⟨by norm_num [payBody0], rfl, rfl, rfl⟩

/-- Claim C7 (corrected): POST /payments validates nothing.  For every
request — missing-or-non-positive amounts and unknown bookingIds included —
it inserts a Payment record and reports success; when no booking matches,
the paymentStatus update touches nothing and the bookings collection is
unchanged. -/
theorem pay_always_writes :
    ∀ (db : DB) (body : PayBody) (now : Nat),
      (pay db body now).1 = Resp.ok ∧
      (pay db body now).2.payments = db.payments ++ [paymentOfBody body now] ∧
      (db.bookings.find? (fun x => x.id == body.bookingId) = none →
        (pay db body now).2.bookings = db.bookings) := by
  intro db body now
  refine ⟨rfl, rfl, ?_⟩
  intro hnone
  show updateFirst (fun x => x.id == body.bookingId)
    (fun x => { x with paymentStatus := some "paid", transactionId := some body.transactionId })
    db.bookings = db.bookings
  exact updateFirst_of_find?_eq_none _ _ _ hnone

/-- Witness for C7's amended statement: the unvalidated request `payBody0`
against the empty store succeeds, inserts, and leaves bookings unchanged. -/
theorem pay_always_writes_witness :
    (pay dbEmpty payBody0 1).1 = Resp.ok ∧
    (pay dbEmpty payBody0 1).2.payments = dbEmpty.payments ++ [paymentOfBody payBody0 1] ∧
    (pay dbEmpty payBody0 1).2.bookings = dbEmpty.bookings :=
  have h := pay_always_writes dbEmpty payBody0 1
  ⟨h.1, h.2.1, h.2.2 (by rfl)⟩

/-! ### Claim C5 -/

/-- A user who has applied to become a decorator but is still role "user". -/
def usr5 : User := { email := "b@x.com", role := "user" }

/-- The pending application of `usr5`. -/
def app5 : Application :=
  { id := 1, name := "B", email := "b@x.com", phone := "0", nid := "n", experience := "2",
    status := "pending", createdAt := 0 }

/-- Store with the pending application and its linked user. -/
def db5 : DB :=
  { users := [usr5], decorators := [app5], bookings := [], payments := [], services := [],
    trackings := [], nextId := 2 }

/-- Claim C5 counterexample: the `src/unnamed/part_003` revision of
PATCH /decorators/approve/:id succeeds, marks the application "approved",
yet leaves the linked user's role at "user" — a reachable state in which
the approved status holds without the decorator role. -/
theorem approve_role_counterexample :
    (approveDecoratorPart003 db5 1).1 = Resp.ok ∧
    (approveDecoratorPart003 db5 1).2.decorators.map Application.status = ["approved"] ∧
    (approveDecoratorPart003 db5 1).2.users.map User.role = ["user"] :=
  ⟨rfl, rfl, rfl⟩

/-- Claim C5 (corrected): in the `part_000` revision a successful Approve
does set the application's status to "approved" and every user with the
application's email to role "decorator" in the same step; but the
`part_003` revision's Approve never touches the users collection, so an
approved application with an unchanged user role is reachable there. -/
theorem approve_outcomes :
    (∀ (db : DB) (appId : Nat) (d : Application),
      db.decorators.find? (fun x => x.id == appId) = some d →
      (approveDecorator db appId).1 = Resp.ok ∧
      (approveDecorator db appId).2.decorators.find? (fun x => x.id == appId) =
        some { d with status := "approved" } ∧
      (approveDecorator db appId).2.users.find? (fun u => u.email == d.email) =
        (db.users.find? (fun u => u.email == d.email)).map
          (fun u => { u with role := "decorator" })) ∧
    (∀ (db : DB) (appId : Nat),
      (approveDecoratorPart003 db appId).1 = Resp.ok ∧
      (approveDecoratorPart003 db appId).2.users = db.users) := by
  constructor
  · intro db appId d hd
    have hid : d.id = appId := by simpa using List.find?_some hd
    subst hid
    refine ⟨by simp [approveDecorator, hd], ?_, ?_⟩
    · have hsvc : (approveDecorator db d.id).2.decorators =
          updateFirst (fun x => x.id == d.id) (fun x => { x with status := "approved" })
            db.decorators := by
        simp [approveDecorator, hd]
      have hcomm := find?_updateFirst (fun x => x.id == d.id)
        (fun x => { x with status := "approved" }) db.decorators (fun a => rfl)
      rw [hsvc, hcomm, hd]
      rfl
    · have husers : (approveDecorator db d.id).2.users =
          updateFirst (fun u => u.email == d.email) (fun u => { u with role := "decorator" })
            db.users := by
        simp [approveDecorator, hd]
      have hcomm := find?_updateFirst (fun u => u.email == d.email)
        (fun u => { u with role := "decorator" }) db.users (fun a => rfl)
      rw [husers, hcomm]
  · intro db appId
    exact ⟨rfl, rfl⟩

/-- Witness for C5's amended statement at the concrete store `db5`. -/
theorem approve_outcomes_witness :
    (approveDecorator db5 1).1 = Resp.ok ∧
    (approveDecorator db5 1).2.decorators.find? (fun x => x.id == 1) =
      some { app5 with status := "approved" } ∧
    (approveDecorator db5 1).2.users.find? (fun u => u.email == app5.email) =
      (db5.users.find? (fun u => u.email == app5.email)).map
        (fun u => { u with role := "decorator" }) :=
  approve_outcomes.1 db5 1 app5 (by rfl)

/-! ### Claim C6 -/

/-- A POST /bookings body carrying a forged owner field and no
paymentStatus. -/
def body6 : BookingBody :=
  { userEmail := some "attacker@x.com", paymentStatus := none, status := none,
    details := "wedding" }

/-- Claim C6 counterexample: the booking stored by the `part_000` handler
for caller "alice@x.com" does get the caller as owner, but its
paymentStatus field is absent — it is never set to "unpaid". -/
theorem createBooking_paymentStatus_counterexample :
    (createBooking dbEmpty "alice@x.com" body6 7).2.bookings.map Booking.userEmail =
      [some "alice@x.com"] ∧
    (createBooking dbEmpty "alice@x.com" body6 7).2.bookings.map Booking.paymentStatus =
      [none] :=
  ⟨rfl, rfl⟩

/-- Claim C6 (corrected): the `part_000` and `index.js` revisions of
CreateBooking stamp `userEmail` from the authenticated caller (ignoring any
owner field in the body) and record a creation timestamp, but `part_000`
writes no paymentStatus at all (it merely passes through whatever the body
carries), `index.js` writes `status` (not `paymentStatus`) as "unpaid", and
the `part_002` revision stores the request body verbatim with no stamping
and no timestamp. -/
theorem createBooking_stamping :
    (∀ (db : DB) (c : String) (body : BookingBody) (now : Nat),
      ∃ bk : Booking, (createBooking db c body now).2.bookings = db.bookings ++ [bk] ∧
        bk.userEmail = some c ∧ bk.createdAt = some now ∧
        bk.paymentStatus = body.paymentStatus) ∧
    (∀ (db : DB) (c : String) (body : BookingBody) (now : Nat),
      ∃ bk : Booking, (createBookingIndex db c body now).2.bookings = db.bookings ++ [bk] ∧
        bk.userEmail = some c ∧ bk.status = some "unpaid" ∧ bk.createdAt = some now) ∧
    (∀ (db : DB) (c : String) (body : BookingBody),
      ∃ bk : Booking, (createBookingPart002 db c body).2.bookings = db.bookings ++ [bk] ∧
        bk.userEmail = body.userEmail ∧ bk.createdAt = none) := by
  refine ⟨fun db c body now => ⟨_, rfl, rfl, rfl, rfl⟩,
    fun db c body now => ⟨_, rfl, rfl, rfl, rfl⟩,
    fun db c body => ⟨_, rfl, rfl, rfl⟩⟩

/-! ### Claim C8 -/

/-- A POST /decorators/apply body for email "a@x.com". -/
def applyBody8 : ApplyBody :=
  { name := "A", email := "a@x.com", phone := "0", nid := "n", experience := "1" }

/-- A store already holding an application for "a@x.com". -/
def db8 : DB :=
  { users := [], decorators := [applicationOfBody 1 applyBody8 0], bookings := [],
    payments := [], services := [], trackings := [], nextId := 2 }

/-- Claim C8 counterexample: in the `src/index.js` revision, applying twice
with the same email succeeds both times and leaves two application
documents for that email — no DuplicateApplication failure occurs. -/
theorem apply_duplicate_counterexample :
    (applyDecoratorIndex (applyDecoratorIndex dbEmpty applyBody8 1).2 applyBody8 2).1 =
      Resp.ok ∧
    ((applyDecoratorIndex (applyDecoratorIndex dbEmpty applyBody8 1).2 applyBody8 2).2.decorators.filter
      (fun d => d.email == "a@x.com")).length = 2 :=
  ⟨rfl, rfl⟩

/-- Claim C8 (corrected): the `part_000` revision of Apply does fail with
the DuplicateApplication response when an application with that email
already exists (whatever its status) and otherwise inserts exactly one new
"pending" application; but the `index.js` revision performs no duplicate
check and inserts a "pending" application unconditionally, so several
applications can accumulate for one email. -/
theorem apply_duplicate_guard :
    (∀ (db : DB) (body : ApplyBody) (now : Nat) (d : Application),
      db.decorators.find? (fun x => x.email == body.email) = some d →
      applyDecorator db body now =
        (Resp.err 400 "You have already applied as a decorator", db)) ∧
    (∀ (db : DB) (body : ApplyBody) (now : Nat),
      db.decorators.find? (fun x => x.email == body.email) = none →
      (applyDecorator db body now).1 = Resp.ok ∧
      (applyDecorator db body now).2.decorators =
        db.decorators ++ [applicationOfBody db.nextId body now] ∧
      (applicationOfBody db.nextId body now).status = "pending" ∧
      (applicationOfBody db.nextId body now).email = body.email) ∧
    (∀ (db : DB) (body : ApplyBody) (now : Nat),
      (applyDecoratorIndex db body now).1 = Resp.ok ∧
      (applyDecoratorIndex db body now).2.decorators =
        db.decorators ++ [applicationOfBody db.nextId body now] ∧
      (applicationOfBody db.nextId body now).status = "pending") := by
  refine ⟨?_, ?_, ?_⟩
  · intro db body now d hd
    simp [applyDecorator, hd]
  · intro db body now hnone
    refine ⟨?_, ?_, rfl, rfl⟩ <;> simp [applyDecorator, hnone]
  · intro db body now
    exact ⟨rfl, rfl, rfl⟩

/-- Witness for C8's amended statement: a duplicate email is rejected on
the concrete store `db8`, and the same request against the empty store is
accepted. -/
theorem apply_duplicate_guard_witness :
    applyDecorator db8 applyBody8 3 =
      (Resp.err 400 "You have already applied as a decorator", db8) ∧
    (applyDecorator dbEmpty applyBody8 1).1 = Resp.ok :=
  ⟨apply_duplicate_guard.1 db8 applyBody8 3 (applicationOfBody 1 applyBody8 0) (by rfl),
   (apply_duplicate_guard.2.1 dbEmpty applyBody8 1 (by rfl)).1⟩

end StyleDecor
